import Mathlib

/-!
Shallow embedding of the Signal-to-Trade Execution Engine of the
`x-monitoring` repository (`apps/trading-orchestrator/src/index.ts`),
together with proofs about its behaviour.

Numeric values (confidence scores, USD amounts, prices, timestamps in
milliseconds) are modelled as rationals `ℚ`; JavaScript number arithmetic
on the small in-range values used here is exact, so this is faithful.
Database rows are modelled as Lean structures with the field names of the
Prisma schema (`packages/database` schema: models `AnalysisResult`,
`Post`, `Trade`), and the persistent `Trade` table as a `List Trade`.
External interactions of one `executeTrade` call (the `Post` lookup, the
24h-exposure query, the DEX quote, the swap build/sign and the chain
submission) are supplied as an `Env` record describing the responses the
outside world gives during that call; the call's own outward effects are
reported as a list of `Effect`s.
-/

namespace XMon

/-- One row of the `trades` table (Prisma model `Trade`).
`executedAt` is a millisecond timestamp. -/
structure Trade where
  uuid : String
  analysisId : Nat
  tokenSymbol : String
  tokenAmount : ℚ
  priceUsd : ℚ
  transactionHash : Option String
  isPaperTrade : Bool
  status : String
  executedAt : ℚ
  errorMessage : Option String
deriving Repr, DecidableEq

/-- An entry of `marketConditions.relatedTokens` on an analysis result. -/
structure RelatedToken where
  symbol : String
  sentiment : ℚ
deriving Repr, DecidableEq

/-- One row of the `analysis_results` table (Prisma model `AnalysisResult`),
restricted to the fields the orchestrator reads.  A missing
`marketConditions`/`relatedTokens` is modelled as the empty list, which
produces the same candidate-symbol list as the code's skipped branch. -/
structure AnalysisResult where
  id : Nat
  postId : Nat
  confidence : ℚ
  decision : String
  relatedTokens : List RelatedToken
  processedAt : ℚ
deriving Repr, DecidableEq

/-- One row of the `posts` table, restricted to what token extraction
needs.  `rawSymbols` models the normalised regex matches of the post's
`content` (each `$SYM`/`#SYM`/`SYM token|coin|crypto` occurrence,
upper-cased and stripped, in textual order); the regex engine itself is
abstracted, the subsequent filtering and deduplication are embedded. -/
structure Post where
  id : Nat
  rawSymbols : List String
deriving Repr, DecidableEq

/-- Configuration of the orchestrator (environment-sourced constants). -/
structure Config where
  confidenceThreshold : ℚ
  maxPositionSize : ℚ
  maxPortfolioExposure : ℚ
  paperTradingMode : Bool
  hasWallet : Bool
deriving Repr, DecidableEq

/-- The default numeric configuration in paper mode:
`CONFIDENCE_THRESHOLD=0.80`, `MAX_POSITION_SIZE=0.05`,
`MAX_PORTFOLIO_EXPOSURE=0.20`. -/
def paperConfig : Config :=
  { confidenceThreshold := 4/5
    maxPositionSize := 1/20
    maxPortfolioExposure := 1/5
    paperTradingMode := true
    hasWallet := false }

/-- The default numeric configuration in live mode with a wallet. -/
def liveConfig : Config :=
  { confidenceThreshold := 4/5
    maxPositionSize := 1/20
    maxPortfolioExposure := 1/5
    paperTradingMode := false
    hasWallet := true }

/-- The static `tokenMap` (symbol → mint address) of the orchestrator. -/
def tokenMap : List (String × String) :=
  [("SOL", "So11111111111111111111111111111111111111112"),
   ("USDC", "EPjFWdd5AufqSSqeM2qN1xzybapC8G4wEGGkZwyTDt1v"),
   ("BONK", "DezXAZ8z7PnrnRJjz3wXBoRgixCa6xjnB7YaB1pPB263"),
   ("WIF", "EKpQGSJtjMFqKZ9KQanSqYXRcF8fBopzLHYxdM65zcjm"),
   ("PEPE", "BzQrdZcFkUCoHqSKkAGDxF8nqjSL9k49Mv9RV5g9nWdX"),
   ("POPCAT", "7GCihgDB8fe6KNjn2MYtkzZcRjQy3t9GHdC8uHYmW2hr"),
   ("JUP", "JUPyiwrYJFskUPiHa7hkeR8VUtAeFoSYbKedZNsDvCN"),
   ("RAY", "4k3Dyjzvzp8eMZWUXbBCjEvwSkkk59S5iCNLY3QrkX6R"),
   ("DRIFT", "DriFtupJYLTosbwoN8koMbEYSx54aFAVLddWsbksjwg7"),
   ("RENDER", "rndrizKT3MK1iimdxRdWabcF7Zg7AR5T4nud4EkHBof")]

/-- `tokenMap[symbol]`: lookup of a symbol's mint address. -/
def tokenLookup (symbol : String) : Option String :=
  (tokenMap.find? (fun p => p.1 == symbol)).map (fun p => p.2)

/-- Insertion into a JS `Set`-like accumulator: append `s` unless present. -/
def insertIfAbsent (acc : List String) (s : String) : List String :=
  if s ∈ acc then acc else acc ++ [s]

/-- `Array.from(new Set(xs))`: deduplication keeping first occurrences. -/
def dedupFirst (xs : List String) : List String :=
  xs.foldl insertIfAbsent []

/-- `extractTokenSymbols`, after the regex step: keep only the candidates
that are keys of `tokenMap`, deduplicated in first-occurrence order. -/
def extractTokenSymbols (rawSymbols : List String) : List String :=
  dedupFirst (rawSymbols.filter (fun s => (tokenLookup s).isSome))

/-- Aggregate USD exposure of a list of trade rows:
`reduce((sum, t) => sum + t.tokenAmount * t.priceUsd, 0)`. -/
def totalExposureOf (trades : List Trade) : ℚ :=
  trades.foldl (fun sum t => sum + t.tokenAmount * t.priceUsd) 0

/-- Per-token USD exposure of a list of trade rows. -/
def tokenExposureOf (trades : List Trade) (tokenSymbol : String) : ℚ :=
  totalExposureOf (trades.filter (fun t => t.tokenSymbol == tokenSymbol))

/-- The 24h-completed-trades query backing the risk check: rows with
`executedAt ≥ now − 24h` and `status = "completed"`. -/
def recentCompletedTrades (db : List Trade) (now : ℚ) : List Trade :=
  db.filter (fun t =>
    decide (now - 86400000 ≤ t.executedAt) && t.status == "completed")

/-- `checkPortfolioRisk(tokenSymbol, tradeAmountUSD)`.  Its database read
is passed in as `ledger : Except Unit (List Trade)`: `.ok` carries the
result of the 24h completed-trades query, `.error` models the query
throwing.  On a throw the catch block returns `false` (fail closed). -/
def checkPortfolioRisk (cfg : Config) (tokenSymbol : String)
    (tradeAmountUSD : ℚ) (ledger : Except Unit (List Trade)) : Bool :=
  match ledger with
  | .error _ => false
  | .ok recentTrades =>
    let totalExposure := totalExposureOf recentTrades
    let tokenExposure := tokenExposureOf recentTrades tokenSymbol
    let newTotalExposure := totalExposure + tradeAmountUSD
    let newTokenExposure := tokenExposure + tradeAmountUSD
    let maxPortfolioValue : ℚ := 10000
    let maxTokenValue := maxPortfolioValue * cfg.maxPositionSize
    if maxPortfolioValue * cfg.maxPortfolioExposure < newTotalExposure then
      false
    else if maxTokenValue < newTokenExposure then
      false
    else
      true

/-- `scaledConfidence = (confidence − threshold) / (1 − threshold)`. -/
def scaledConfidence (cfg : Config) (confidence : ℚ) : ℚ :=
  (confidence - cfg.confidenceThreshold) / (1 - cfg.confidenceThreshold)

/-- `positionSize = min(MAX_POSITION_SIZE × scaledConfidence, MAX_POSITION_SIZE)`. -/
def positionSize (cfg : Config) (confidence : ℚ) : ℚ :=
  min (cfg.maxPositionSize * scaledConfidence cfg confidence)
    cfg.maxPositionSize

/-- `tradeAmountUSD = 100 × positionSize` (base trade amount $100). -/
def tradeAmountUSD (cfg : Config) (confidence : ℚ) : ℚ :=
  100 * positionSize cfg confidence

/-- Candidates from `marketConditions.relatedTokens`: tokens with
`sentiment > 0.5` whose symbol is a key of `tokenMap`. -/
def relatedCandidates (related : List RelatedToken) : List String :=
  (related.filter (fun t =>
    decide ((1:ℚ)/2 < t.sentiment) && (tokenLookup t.symbol).isSome)).map
    (fun t => t.symbol)

/-- The candidate-symbol list built in `executeTrade`: text extraction,
union with related-token candidates (`[...new Set([...a, ...b])]`), then
fallback to `["SOL"]` when empty. -/
def candidateSymbols (rawSymbols : List String)
    (related : List RelatedToken) : List String :=
  let fromText := extractTokenSymbols rawSymbols
  let combined := dedupFirst (fromText ++ relatedCandidates related)
  if combined.isEmpty then ["SOL"] else combined

/-- `tokenSymbols[0]`: the trading target picked in `executeTrade`. -/
def chosenSymbol (post : Post) (analysisResult : AnalysisResult) : String :=
  (candidateSymbols post.rawSymbols analysisResult.relatedTokens).headD ""

/-- Outward external calls one `executeTrade` invocation can make beyond
reads/writes of the persistent store. -/
inductive Effect where
  | quoteRequest
  | swapRequest
  | sendTransaction
deriving Repr, DecidableEq

/-- Responses of the outside world during one `executeTrade` call:
the `Post` lookup, the risk guard's ledger query, the Jupiter quote
(`outAmount` of the returned quote, `none` when no quote is found), the
swap build/sign step, the submission+confirmation step (transaction id or
error message), plus the generated row `uuid` and the current time. -/
structure Env where
  post : Option Post
  ledger : Except Unit (List Trade)
  quote : Option Nat
  swapBuild : Except String Unit
  send : Except String String
  freshUuid : String
  now : ℚ

/-- `prisma.trade.updateMany({where: {analysisId, status: "pending"}, data:
{status: "failed", errorMessage}})`: the catch block of the live path. -/
def failPendingRows (rows : List Trade) (analysisId : Nat)
    (msg : String) : List Trade :=
  rows.map (fun t =>
    if t.analysisId == analysisId && t.status == "pending" then
      { t with status := "failed", errorMessage := some msg }
    else t)

/-- The row `prisma.trade.create` writes on the paper path: estimated
price (`150` for SOL, `0.001` otherwise), `tokenAmount =
tradeAmountUSD / estimatedPrice`, `isPaperTrade: true`,
`status: "completed"`. -/
def paperTradeRow (cfg : Config) (env : Env) (a : AnalysisResult)
    (p : Post) : Trade :=
  let tokenSymbol := chosenSymbol p a
  let estimatedPrice : ℚ := if tokenSymbol == "SOL" then 150 else 1/1000
  { uuid := env.freshUuid
    analysisId := a.id
    tokenSymbol := tokenSymbol
    tokenAmount := tradeAmountUSD cfg a.confidence / estimatedPrice
    priceUsd := estimatedPrice
    transactionHash := none
    isPaperTrade := true
    status := "completed"
    executedAt := env.now
    errorMessage := none }

/-- The row `prisma.trade.create` writes at the start of the live path:
`tokenAmount: 0`, `priceUsd: 0`, `isPaperTrade: false`,
`status: "pending"`. -/
def pendingRow (env : Env) (a : AnalysisResult) (p : Post) : Trade :=
  { uuid := env.freshUuid
    analysisId := a.id
    tokenSymbol := chosenSymbol p a
    tokenAmount := 0
    priceUsd := 0
    transactionHash := none
    isPaperTrade := false
    status := "pending"
    executedAt := env.now
    errorMessage := none }

/-- The pending row after the no-quote update:
`status: "failed"`, `errorMessage: "No quote found"`. -/
def noQuoteRow (env : Env) (a : AnalysisResult) (p : Post) : Trade :=
  { pendingRow env a p with
      status := "failed"
      errorMessage := some "No quote found" }

/-- The pending row after the final update of a successful live trade:
`outputAmount = outAmount / 10^decimals` (9 decimals for SOL, else 6),
`actualPrice = tradeAmountUSD / outputAmount`, the transaction hash, and
`status: "completed"`. -/
def liveCompletedRow (cfg : Config) (env : Env) (a : AnalysisResult)
    (p : Post) (outAmount : Nat) (txid : String) : Trade :=
  let tokenSymbol := chosenSymbol p a
  let tokenDecimals : ℕ := if tokenSymbol == "SOL" then 9 else 6
  let outputAmount : ℚ := (outAmount : ℚ) / (10 : ℚ) ^ tokenDecimals
  { pendingRow env a p with
      tokenAmount := outputAmount
      priceUsd := tradeAmountUSD cfg a.confidence / outputAmount
      transactionHash := some txid
      status := "completed" }

/-- `executeTrade(analysisResult)`: returns the trade the function returns
(`null` ↦ `none`), the resulting `trades` table, and the external calls
made.  Mirrors `apps/trading-orchestrator/src/index.ts` lines 302–547. -/
def executeTrade (cfg : Config) (env : Env)
    (analysisResult : AnalysisResult) (db : List Trade) :
    Option Trade × List Trade × List Effect :=
  if analysisResult.confidence < cfg.confidenceThreshold then
    (none, db, [])
  else if analysisResult.decision ≠ "buy" then
    (none, db, [])
  else
    match env.post with
    | none => (none, db, [])
    | some post =>
      let tokenSymbol := chosenSymbol post analysisResult
      if (tokenLookup tokenSymbol).isNone then
        (none, db, [])
      else
        let amountUSD := tradeAmountUSD cfg analysisResult.confidence
        if !checkPortfolioRisk cfg tokenSymbol amountUSD env.ledger then
          (none, db, [])
        else if cfg.paperTradingMode || !cfg.hasWallet then
          let trade := paperTradeRow cfg env analysisResult post
          (some trade, db ++ [trade], [])
        else
          match env.quote with
          | none =>
            (none, db ++ [noQuoteRow env analysisResult post],
              [.quoteRequest])
          | some outAmount =>
            match env.swapBuild with
            | .error msg =>
              (none,
                failPendingRows (db ++ [pendingRow env analysisResult post])
                  analysisResult.id msg,
                [.quoteRequest, .swapRequest])
            | .ok _ =>
              match env.send with
              | .error msg =>
                (none,
                  failPendingRows (db ++ [pendingRow env analysisResult post])
                    analysisResult.id msg,
                  [.quoteRequest, .swapRequest, .sendTransaction])
              | .ok txid =>
                let completed :=
                  liveCompletedRow cfg env analysisResult post outAmount txid
                (some completed, db ++ [completed],
                  [.quoteRequest, .swapRequest, .sendTransaction])

/-- Whether some `Trade` row references the analysis (`trades: {none: {}}`
negated). -/
def hasTradeFor (trades : List Trade) (analysisId : Nat) : Bool :=
  trades.any (fun t => t.analysisId == analysisId)

/-- `orderBy: {processedAt: 'desc'}` as a relation: `a` before `b`. -/
def newestFirst (a b : AnalysisResult) : Prop :=
  b.processedAt ≤ a.processedAt

instance : DecidableRel newestFirst :=
  fun a b => inferInstanceAs (Decidable (b.processedAt ≤ a.processedAt))

instance : IsTotal AnalysisResult newestFirst :=
  ⟨fun a b => le_total b.processedAt a.processedAt⟩

instance : IsTrans AnalysisResult newestFirst :=
  ⟨fun _ _ _ hab hbc => le_trans hbc hab⟩

/-- One polling tick's query in `setupAnalysisProcessor`: analysis results
with no trade, `processedAt` within the last 5 minutes, ordered by
`processedAt` descending, limited to 5. -/
def tickFetch (analyses : List AnalysisResult) (trades : List Trade)
    (now : ℚ) : List AnalysisResult :=
  (List.insertionSort newestFirst
    (analyses.filter (fun a =>
      !hasTradeFor trades a.id && decide (now - 300000 ≤ a.processedAt)))).take 5

/-! ### Branch equations for `executeTrade` -/

/-- Elements of `insertIfAbsent acc s` come from `acc` or are `s`. -/
theorem mem_insertIfAbsent {x s : String} {acc : List String}
    (h : x ∈ insertIfAbsent acc s) : x ∈ acc ∨ x = s := by
  unfold insertIfAbsent at h
  by_cases hs : s ∈ acc
  · rw [if_pos hs] at h
    exact Or.inl h
  · rw [if_neg hs] at h
    rcases List.mem_append.mp h with h1 | h1
    · exact Or.inl h1
    · exact Or.inr (List.mem_singleton.mp h1)

/-- Elements of the `Set`-accumulating fold come from the accumulator or
the list. -/
theorem mem_foldl_insertIfAbsent :
    ∀ (xs acc : List String) (x : String),
      x ∈ xs.foldl insertIfAbsent acc → x ∈ acc ∨ x ∈ xs
  | [], _, _, h => Or.inl h
  | s :: xs, acc, x, h => by
    rcases mem_foldl_insertIfAbsent xs (insertIfAbsent acc s) x h with h1 | h1
    · rcases mem_insertIfAbsent h1 with h2 | h2
      · exact Or.inl h2
      · exact Or.inr (h2 ▸ List.mem_cons_self s xs)
    · exact Or.inr (List.mem_cons_of_mem s h1)

/-- `dedupFirst` only keeps elements of its input. -/
theorem mem_dedupFirst {x : String} {xs : List String}
    (h : x ∈ dedupFirst xs) : x ∈ xs := by
  rcases mem_foldl_insertIfAbsent xs [] x h with h1 | h1
  · cases h1
  · exact h1

/-- Every symbol produced by `extractTokenSymbols` is a `tokenMap` key. -/
theorem extractTokenSymbols_supported {s : String} {raw : List String}
    (h : s ∈ extractTokenSymbols raw) : (tokenLookup s).isSome = true :=
  (List.mem_filter.mp (mem_dedupFirst h)).2

/-- Every related-token candidate is a `tokenMap` key. -/
theorem relatedCandidates_supported {s : String}
    {related : List RelatedToken} (h : s ∈ relatedCandidates related) :
    (tokenLookup s).isSome = true := by
  rcases List.mem_map.mp h with ⟨t, ht, rfl⟩
  have := (List.mem_filter.mp ht).2
  exact (Bool.and_eq_true _ _ |>.mp this).2

/-- The candidate list is never empty and every element is supported
(helper shared by several results below). -/
theorem candidateSymbols_supported (raw : List String)
    (related : List RelatedToken) :
    candidateSymbols raw related ≠ [] ∧
    ∀ s ∈ candidateSymbols raw related, (tokenLookup s).isSome = true := by
  unfold candidateSymbols
  by_cases he : (dedupFirst (extractTokenSymbols raw ++ relatedCandidates related)).isEmpty
  · rw [if_pos he]
    refine ⟨by simp, ?_⟩
    intro s hs
    rw [List.mem_singleton.mp hs]
    rfl
  · rw [if_neg he]
    refine ⟨fun hnil => by simp [hnil] at he, ?_⟩
    intro s hs
    rcases List.mem_append.mp (mem_dedupFirst hs) with h1 | h1
    · exact extractTokenSymbols_supported h1
    · exact relatedCandidates_supported h1

/-- The first candidate — the chosen trading target — is supported. -/
theorem candidateSymbols_headD_supported (raw : List String)
    (related : List RelatedToken) :
    (tokenLookup ((candidateSymbols raw related).headD "")).isSome = true := by
  obtain ⟨hne, hall⟩ := candidateSymbols_supported raw related
  obtain ⟨x, rest, hx⟩ := List.exists_cons_of_ne_nil hne
  rw [hx]
  exact hall x (by rw [hx]; exact List.mem_cons_self x rest)

/-- The unsupported-token check on the chosen symbol never fires. -/
theorem chosenSymbol_isNone_false (p : Post) (a : AnalysisResult) :
    (tokenLookup (chosenSymbol p a)).isNone = false := by
  have h := candidateSymbols_headD_supported p.rawSymbols a.relatedTokens
  unfold chosenSymbol
  rcases Option.isSome_iff_exists.mp h with ⟨v, hv⟩
  rw [hv]
  rfl

/-- Early exits: low confidence, non-buy decision or missing post. -/
theorem executeTrade_early_none (cfg : Config) (env : Env)
    (a : AnalysisResult) (db : List Trade)
    (h : a.confidence < cfg.confidenceThreshold ∨ a.decision ≠ "buy" ∨
      env.post = none) :
    executeTrade cfg env a db = (none, db, []) := by
  rcases h with h | h | h
  · simp [executeTrade, h]
  · by_cases hc : a.confidence < cfg.confidenceThreshold
    · simp [executeTrade, hc]
    · simp [executeTrade, hc, h]
  · by_cases hc : a.confidence < cfg.confidenceThreshold
    · simp [executeTrade, hc]
    · by_cases hd : a.decision = "buy"
      · simp [executeTrade, hc, hd, h]
      · simp [executeTrade, hc, hd]

/-- Risk-guard rejection exit. -/
theorem executeTrade_riskFail_eq (cfg : Config) (env : Env)
    (a : AnalysisResult) (db : List Trade) (p : Post)
    (hconf : ¬ a.confidence < cfg.confidenceThreshold)
    (hdec : a.decision = "buy") (hpost : env.post = some p)
    (hrisk : checkPortfolioRisk cfg (chosenSymbol p a)
      (tradeAmountUSD cfg a.confidence) env.ledger = false) :
    executeTrade cfg env a db = (none, db, []) := by
  simp [executeTrade, hconf, hdec, hpost, chosenSymbol_isNone_false, hrisk]

/-- Paper-mode branch. -/
theorem executeTrade_paper_eq (cfg : Config) (env : Env)
    (a : AnalysisResult) (db : List Trade) (p : Post)
    (hconf : ¬ a.confidence < cfg.confidenceThreshold)
    (hdec : a.decision = "buy") (hpost : env.post = some p)
    (hrisk : checkPortfolioRisk cfg (chosenSymbol p a)
      (tradeAmountUSD cfg a.confidence) env.ledger = true)
    (hmode : cfg.paperTradingMode = true ∨ cfg.hasWallet = false) :
    executeTrade cfg env a db =
      (some (paperTradeRow cfg env a p), db ++ [paperTradeRow cfg env a p],
        []) := by
  rcases hmode with hm | hm <;>
    simp [executeTrade, hconf, hdec, hpost, chosenSymbol_isNone_false,
      hrisk, hm]

/-- Live branch, no quote returned. -/
theorem executeTrade_noQuote_eq (cfg : Config) (env : Env)
    (a : AnalysisResult) (db : List Trade) (p : Post)
    (hconf : ¬ a.confidence < cfg.confidenceThreshold)
    (hdec : a.decision = "buy") (hpost : env.post = some p)
    (hrisk : checkPortfolioRisk cfg (chosenSymbol p a)
      (tradeAmountUSD cfg a.confidence) env.ledger = true)
    (hpaper : cfg.paperTradingMode = false) (hw : cfg.hasWallet = true)
    (hquote : env.quote = none) :
    executeTrade cfg env a db =
      (none, db ++ [noQuoteRow env a p], [Effect.quoteRequest]) := by
  simp [executeTrade, hconf, hdec, hpost, chosenSymbol_isNone_false,
    hrisk, hpaper, hw, hquote]

/-- Live branch, swap build/sign fails. -/
theorem executeTrade_swapError_eq (cfg : Config) (env : Env)
    (a : AnalysisResult) (db : List Trade) (p : Post) (msg : String)
    (hconf : ¬ a.confidence < cfg.confidenceThreshold)
    (hdec : a.decision = "buy") (hpost : env.post = some p)
    (hrisk : checkPortfolioRisk cfg (chosenSymbol p a)
      (tradeAmountUSD cfg a.confidence) env.ledger = true)
    (hpaper : cfg.paperTradingMode = false) (hw : cfg.hasWallet = true)
    (outAmount : Nat) (hquote : env.quote = some outAmount)
    (hswap : env.swapBuild = Except.error msg) :
    executeTrade cfg env a db =
      (none, failPendingRows (db ++ [pendingRow env a p]) a.id msg,
        [Effect.quoteRequest, Effect.swapRequest]) := by
  simp [executeTrade, hconf, hdec, hpost, chosenSymbol_isNone_false,
    hrisk, hpaper, hw, hquote, hswap]

/-- Live branch, submission/confirmation fails. -/
theorem executeTrade_sendError_eq (cfg : Config) (env : Env)
    (a : AnalysisResult) (db : List Trade) (p : Post) (msg : String)
    (hconf : ¬ a.confidence < cfg.confidenceThreshold)
    (hdec : a.decision = "buy") (hpost : env.post = some p)
    (hrisk : checkPortfolioRisk cfg (chosenSymbol p a)
      (tradeAmountUSD cfg a.confidence) env.ledger = true)
    (hpaper : cfg.paperTradingMode = false) (hw : cfg.hasWallet = true)
    (outAmount : Nat) (hquote : env.quote = some outAmount)
    (hswap : env.swapBuild = Except.ok ())
    (hsend : env.send = Except.error msg) :
    executeTrade cfg env a db =
      (none, failPendingRows (db ++ [pendingRow env a p]) a.id msg,
        [Effect.quoteRequest, Effect.swapRequest, Effect.sendTransaction]) := by
  simp [executeTrade, hconf, hdec, hpost, chosenSymbol_isNone_false,
    hrisk, hpaper, hw, hquote, hswap, hsend]

/-- Live branch, success. -/
theorem executeTrade_liveSuccess_eq (cfg : Config) (env : Env)
    (a : AnalysisResult) (db : List Trade) (p : Post) (txid : String)
    (hconf : ¬ a.confidence < cfg.confidenceThreshold)
    (hdec : a.decision = "buy") (hpost : env.post = some p)
    (hrisk : checkPortfolioRisk cfg (chosenSymbol p a)
      (tradeAmountUSD cfg a.confidence) env.ledger = true)
    (hpaper : cfg.paperTradingMode = false) (hw : cfg.hasWallet = true)
    (outAmount : Nat) (hquote : env.quote = some outAmount)
    (hswap : env.swapBuild = Except.ok ())
    (hsend : env.send = Except.ok txid) :
    executeTrade cfg env a db =
      (some (liveCompletedRow cfg env a p outAmount txid),
        db ++ [liveCompletedRow cfg env a p outAmount txid],
        [Effect.quoteRequest, Effect.swapRequest, Effect.sendTransaction]) := by
  simp [executeTrade, hconf, hdec, hpost, chosenSymbol_isNone_false,
    hrisk, hpaper, hw, hquote, hswap, hsend]

/-! ### Claim C1: risk-guard cap comparisons -/

/-- A completed trade row worth $1500 (10 BONK at $150), used to exhibit
the risk guard's behaviour exactly at both caps. -/
def capLedgerTrade : Trade :=
  { uuid := "w0"
    analysisId := 0
    tokenSymbol := "BONK"
    tokenAmount := 10
    priceUsd := 150
    transactionHash := none
    isPaperTrade := true
    status := "completed"
    executedAt := 0
    errorMessage := none }

/-- C1 counterexample: with $1500 of prior aggregate exposure and none on
SOL, a $500 SOL trade brings the aggregate exposure to exactly $2000 and
the SOL exposure to exactly $500 — both caps hit exactly — yet
`checkPortfolioRisk` accepts, contradicting "when the new exposure equals
a cap exactly the trade is rejected". -/
theorem checkPortfolioRisk_at_cap_accepts :
    totalExposureOf [capLedgerTrade] + 500 = 10000 * paperConfig.maxPortfolioExposure ∧
    tokenExposureOf [capLedgerTrade] "SOL" + 500 = 10000 * paperConfig.maxPositionSize ∧
    checkPortfolioRisk paperConfig "SOL" 500 (Except.ok [capLedgerTrade]) = true := by
  have hbs : ("BONK":String) ≠ "SOL" := by decide
  norm_num [totalExposureOf, tokenExposureOf, checkPortfolioRisk,
    paperConfig, capLedgerTrade, List.filter_cons, List.filter_nil, hbs]

/-- C1 (amended): the risk guard accepts a proposed `(tokenSymbol, amt)`
iff the new aggregate exposure is at most $2,000 = `10000 × 0.20` and the
new per-token exposure is at most $500 = `10000 × 0.05`; it rejects only
when a cap is strictly exceeded, so a new exposure exactly at a cap is
accepted. -/
theorem checkPortfolioRisk_accept_iff (tokenSymbol : String) (amt : ℚ)
    (ledger : List Trade) :
    checkPortfolioRisk paperConfig tokenSymbol amt (Except.ok ledger) = true ↔
      totalExposureOf ledger + amt ≤ 2000 ∧
      tokenExposureOf ledger tokenSymbol + amt ≤ 500 := by
  have hA : (10000:ℚ) * paperConfig.maxPortfolioExposure = 2000 := by
    norm_num [paperConfig]
  have hB : (10000:ℚ) * paperConfig.maxPositionSize = 500 := by
    norm_num [paperConfig]
  simp only [checkPortfolioRisk, hA, hB]
  split_ifs with h1 h2
  · simp only [Bool.false_eq_true, false_iff, not_and, not_le]
    exact fun h => absurd h (not_le.mpr h1)
  · simp only [Bool.false_eq_true, false_iff, not_and, not_le]
    exact fun _ => not_le.mp (fun h => absurd h (not_le.mpr h2))
  · simp only [true_iff]
    exact ⟨not_lt.mp h1, not_lt.mp h2⟩

/-! ### Claim C5: position sizing -/

/-- C5: above threshold the notional is
`100 × min(maxPositionSize × scaledConfidence, maxPositionSize)`, the
scale factor lies in `[0,1]` (for confidence in `[threshold, 1]`), the
notional never exceeds $5 at the defaults, and confidence 0.95 yields
scale factor 0.75 and notional $3.75. -/
theorem tradeAmountUSD_formula (confidence : ℚ)
    (h1 : 4/5 ≤ confidence) (h2 : confidence ≤ 1) :
    tradeAmountUSD paperConfig confidence =
      100 * min ((1/20) * scaledConfidence paperConfig confidence) (1/20) ∧
    0 ≤ scaledConfidence paperConfig confidence ∧
    scaledConfidence paperConfig confidence ≤ 1 ∧
    tradeAmountUSD paperConfig confidence ≤ 5 ∧
    scaledConfidence paperConfig (19/20) = 3/4 ∧
    tradeAmountUSD paperConfig (19/20) = 15/4 := by
  have hs : scaledConfidence paperConfig confidence =
      5 * (confidence - 4/5) := by
    unfold scaledConfidence paperConfig
    norm_num
    ring
  refine ⟨rfl, ?_, ?_, ?_, ?_, ?_⟩
  · rw [hs]; linarith
  · rw [hs]; linarith
  · have hm : min ((1/20) * scaledConfidence paperConfig confidence)
        ((1:ℚ)/20) ≤ 1/20 := min_le_right _ _
    have : tradeAmountUSD paperConfig confidence =
        100 * min ((1/20) * scaledConfidence paperConfig confidence) (1/20) :=
      rfl
    rw [this]
    linarith
  · unfold scaledConfidence paperConfig
    norm_num
  · unfold tradeAmountUSD positionSize scaledConfidence paperConfig
    norm_num [min_def]

/-- C5 witness at confidence 0.95. -/
theorem tradeAmountUSD_formula_witness :
    ((4:ℚ)/5 ≤ 19/20 ∧ (19:ℚ)/20 ≤ 1) ∧
    (tradeAmountUSD paperConfig (19/20) =
      100 * min ((1/20) * scaledConfidence paperConfig (19/20)) (1/20) ∧
    0 ≤ scaledConfidence paperConfig (19/20) ∧
    scaledConfidence paperConfig (19/20) ≤ 1 ∧
    tradeAmountUSD paperConfig (19/20) ≤ 5 ∧
    scaledConfidence paperConfig (19/20) = 3/4 ∧
    tradeAmountUSD paperConfig (19/20) = 15/4) :=
  ⟨⟨by norm_num, by norm_num⟩,
    tradeAmountUSD_formula (19/20) (by norm_num) (by norm_num)⟩

/-! ### Claim C6: low confidence / non-buy decisions never trade -/

/-- C6: when confidence is strictly below the threshold or the decision
is not `buy`, `executeTrade` returns `null`, leaves the trades table
unchanged and makes no external call. -/
theorem executeTrade_skips_nonBuy (cfg : Config) (env : Env)
    (a : AnalysisResult) (db : List Trade)
    (h : a.confidence < cfg.confidenceThreshold ∨ a.decision ≠ "buy") :
    executeTrade cfg env a db = (none, db, []) := by
  unfold executeTrade
  rcases h with h | h
  · rw [if_pos h]
  · by_cases hc : a.confidence < cfg.confidenceThreshold
    · rw [if_pos hc]
    · rw [if_neg hc, if_pos h]

/-- A `hold` analysis with confidence 0.99. -/
def holdAnalysis : AnalysisResult :=
  { id := 7
    postId := 3
    confidence := 99/100
    decision := "hold"
    relatedTokens := []
    processedAt := 0 }

/-- A benign environment: post found with no symbol matches, empty
ledger, quote and submission all succeeding. -/
def plainEnv : Env :=
  { post := some { id := 3, rawSymbols := [] }
    ledger := .ok []
    quote := some 1000000000
    swapBuild := .ok ()
    send := .ok "tx123"
    freshUuid := "u1"
    now := 0 }

/-- C6 witness: a `hold` decision with confidence 0.99 yields no trade. -/
theorem executeTrade_skips_nonBuy_witness :
    (holdAnalysis.confidence < paperConfig.confidenceThreshold ∨
      holdAnalysis.decision ≠ "buy") ∧
    executeTrade paperConfig plainEnv holdAnalysis [] = (none, [], []) :=
  ⟨Or.inr (by decide),
    executeTrade_skips_nonBuy paperConfig plainEnv holdAnalysis []
      (Or.inr (by decide))⟩

/-! ### Claim C9: ledger-read failure fails closed -/

/-- C9: when the ledger query errors, `checkPortfolioRisk` returns
`false`, and `executeTrade` creates no trade row and changes nothing. -/
theorem riskGuard_fail_closed (cfg : Config) (env : Env)
    (a : AnalysisResult) (db : List Trade) (tokenSymbol : String) (amt : ℚ)
    (e : Unit) (h : env.ledger = Except.error e) :
    checkPortfolioRisk cfg tokenSymbol amt env.ledger = false ∧
    executeTrade cfg env a db = (none, db, []) := by
  have hrisk : ∀ s q, checkPortfolioRisk cfg s q env.ledger = false := by
    intro s q
    rw [h]
    rfl
  refine ⟨hrisk tokenSymbol amt, ?_⟩
  by_cases h1 : a.confidence < cfg.confidenceThreshold
  · simp [executeTrade, h1]
  · by_cases h2 : a.decision = "buy"
    · match hp : env.post with
      | none => simp [executeTrade, h1, h2, hp]
      | some p => simp [executeTrade, h1, h2, hp, hrisk]
    · simp [executeTrade, h1, h2]

/-- The environment of `plainEnv`, but with a failing ledger query. -/
def ledgerErrorEnv : Env :=
  { plainEnv with ledger := .error () }

/-- A `buy` analysis with confidence 0.95. -/
def buyAnalysis95 : AnalysisResult :=
  { id := 1
    postId := 3
    confidence := 19/20
    decision := "buy"
    relatedTokens := []
    processedAt := 0 }

/-- C9 witness: with the ledger query failing, the guard rejects and no
trade is created. -/
theorem riskGuard_fail_closed_witness :
    ledgerErrorEnv.ledger = Except.error () ∧
    (checkPortfolioRisk paperConfig "SOL" (15/4) ledgerErrorEnv.ledger = false ∧
      executeTrade paperConfig ledgerErrorEnv buyAnalysis95 [] = (none, [], [])) :=
  ⟨rfl, riskGuard_fail_closed paperConfig ledgerErrorEnv buyAnalysis95 []
    "SOL" (15/4) () rfl⟩

/-! ### Claim C8: paper mode completes directly -/

/-- C8: with the paper flag set or no wallet, once the gates pass (buy
decision at/above threshold, post found, risk accepted) `executeTrade`
appends a single completed paper trade priced at the symbol's estimated
price with `tokenAmount = notional / estimatedPrice`, returns it, and
makes no external call (empty effect list). -/
theorem paperMode_completes_directly (cfg : Config) (env : Env)
    (a : AnalysisResult) (db : List Trade) (p : Post)
    (hmode : cfg.paperTradingMode = true ∨ cfg.hasWallet = false)
    (hconf : ¬ a.confidence < cfg.confidenceThreshold)
    (hdec : a.decision = "buy") (hpost : env.post = some p)
    (hrisk : checkPortfolioRisk cfg (chosenSymbol p a)
      (tradeAmountUSD cfg a.confidence) env.ledger = true) :
    executeTrade cfg env a db =
      (some (paperTradeRow cfg env a p), db ++ [paperTradeRow cfg env a p],
        []) ∧
    (paperTradeRow cfg env a p).isPaperTrade = true ∧
    (paperTradeRow cfg env a p).status = "completed" ∧
    (paperTradeRow cfg env a p).priceUsd =
      (if chosenSymbol p a == "SOL" then (150:ℚ) else 1/1000) ∧
    (paperTradeRow cfg env a p).tokenAmount =
      tradeAmountUSD cfg a.confidence /
        (if chosenSymbol p a == "SOL" then (150:ℚ) else 1/1000) :=
  ⟨executeTrade_paper_eq cfg env a db p hconf hdec hpost hrisk hmode,
    rfl, rfl, rfl, rfl⟩

/-- The post of the witness scenarios: its text mentions `$SOL`. -/
def solPost : Post :=
  { id := 3, rawSymbols := ["SOL"] }

/-- Witness environment: post found mentioning SOL, empty ledger, no
quote available. -/
def solEnv : Env :=
  { post := some solPost
    ledger := .ok []
    quote := none
    swapBuild := .ok ()
    send := .ok "tx123"
    freshUuid := "u2"
    now := 0 }

/-- A `buy` analysis with confidence 1 (sized to the $5 maximum). -/
def buyAnalysisFull : AnalysisResult :=
  { id := 2
    postId := 3
    confidence := 1
    decision := "buy"
    relatedTokens := []
    processedAt := 0 }

/-- C8 witness: paper mode, SOL, notional $5 ⇒ a completed paper trade
with `tokenAmount = 5/150` and no external call. -/
theorem paperMode_completes_directly_witness :
    ((paperConfig.paperTradingMode = true ∨ paperConfig.hasWallet = false) ∧
      ¬ buyAnalysisFull.confidence < paperConfig.confidenceThreshold ∧
      buyAnalysisFull.decision = "buy" ∧
      solEnv.post = some solPost ∧
      checkPortfolioRisk paperConfig (chosenSymbol solPost buyAnalysisFull)
        (tradeAmountUSD paperConfig buyAnalysisFull.confidence)
        solEnv.ledger = true) ∧
    executeTrade paperConfig solEnv buyAnalysisFull [] =
      (some (paperTradeRow paperConfig solEnv buyAnalysisFull solPost),
        [paperTradeRow paperConfig solEnv buyAnalysisFull solPost], []) ∧
    tradeAmountUSD paperConfig buyAnalysisFull.confidence = 5 ∧
    (paperTradeRow paperConfig solEnv buyAnalysisFull solPost).tokenAmount =
      5 / 150 ∧
    (paperTradeRow paperConfig solEnv buyAnalysisFull solPost).priceUsd = 150 ∧
    (paperTradeRow paperConfig solEnv buyAnalysisFull solPost).status =
      "completed" ∧
    (paperTradeRow paperConfig solEnv buyAnalysisFull solPost).isPaperTrade =
      true := by
  have hsym : chosenSymbol solPost buyAnalysisFull = "SOL" := rfl
  have hamt : tradeAmountUSD paperConfig buyAnalysisFull.confidence = 5 := by
    norm_num [tradeAmountUSD, positionSize, scaledConfidence, paperConfig,
      buyAnalysisFull, min_def]
  have hconf : ¬ buyAnalysisFull.confidence < paperConfig.confidenceThreshold := by
    norm_num [buyAnalysisFull, paperConfig]
  have hrisk : checkPortfolioRisk paperConfig
      (chosenSymbol solPost buyAnalysisFull)
      (tradeAmountUSD paperConfig buyAnalysisFull.confidence)
      solEnv.ledger = true := by
    rw [hsym, hamt]
    norm_num [checkPortfolioRisk, totalExposureOf, tokenExposureOf,
      paperConfig, solEnv]
  refine ⟨⟨Or.inl rfl, hconf, rfl, rfl, hrisk⟩,
    (paperMode_completes_directly paperConfig solEnv buyAnalysisFull []
      solPost (Or.inl rfl) hconf rfl rfl hrisk).1, hamt, ?_, ?_, rfl, rfl⟩
  · simp [paperTradeRow, hsym, hamt]
  · simp [paperTradeRow, hsym]

/-! ### Claim C7: no quote ⇒ pending trade fails, no submission -/

/-- C7 counterexample: in live mode with no quote available, the single
trade row written for the analysis carries
`errorMessage = "No quote found"` (capital N), not `"no quote found"` as
the claim states. -/
theorem noQuote_errorMessage_counterexample :
    (executeTrade liveConfig solEnv buyAnalysis95 []).2.1.map
        Trade.errorMessage = [some "No quote found"] ∧
    (executeTrade liveConfig solEnv buyAnalysis95 []).2.1.map
        Trade.errorMessage ≠ [some "no quote found"] := by
  have hconf : ¬ buyAnalysis95.confidence < liveConfig.confidenceThreshold := by
    norm_num [buyAnalysis95, liveConfig]
  have hsym : chosenSymbol solPost buyAnalysis95 = "SOL" := rfl
  have hrisk : checkPortfolioRisk liveConfig
      (chosenSymbol solPost buyAnalysis95)
      (tradeAmountUSD liveConfig buyAnalysis95.confidence)
      solEnv.ledger = true := by
    rw [hsym]
    norm_num [checkPortfolioRisk, totalExposureOf, tokenExposureOf,
      tradeAmountUSD, positionSize, scaledConfidence, liveConfig,
      buyAnalysis95, solEnv, min_def]
  rw [executeTrade_noQuote_eq liveConfig solEnv buyAnalysis95 [] solPost
    hconf rfl rfl hrisk rfl rfl rfl]
  constructor
  · simp [noQuoteRow, pendingRow]
  · simp [noQuoteRow, pendingRow]

/-- C7 (amended): in live mode, when the quote request returns no quote,
the pending row transitions to `status="failed"` with
`errorMessage="No quote found"`, `executeTrade` returns `null`, and no
swap is built or submitted (the only external call is the quote
request). -/
theorem noQuote_fails_pending (cfg : Config) (env : Env)
    (a : AnalysisResult) (db : List Trade) (p : Post)
    (hconf : ¬ a.confidence < cfg.confidenceThreshold)
    (hdec : a.decision = "buy") (hpost : env.post = some p)
    (hrisk : checkPortfolioRisk cfg (chosenSymbol p a)
      (tradeAmountUSD cfg a.confidence) env.ledger = true)
    (hpaper : cfg.paperTradingMode = false) (hw : cfg.hasWallet = true)
    (hquote : env.quote = none) :
    executeTrade cfg env a db =
      (none, db ++ [noQuoteRow env a p], [Effect.quoteRequest]) ∧
    (noQuoteRow env a p).status = "failed" ∧
    (noQuoteRow env a p).errorMessage = some "No quote found" ∧
    Effect.swapRequest ∉ (executeTrade cfg env a db).2.2 ∧
    Effect.sendTransaction ∉ (executeTrade cfg env a db).2.2 := by
  have heq := executeTrade_noQuote_eq cfg env a db p hconf hdec hpost hrisk
    hpaper hw hquote
  refine ⟨heq, rfl, rfl, ?_, ?_⟩ <;> rw [heq] <;> simp

/-- C7 witness: the no-quote scenario at confidence 0.95 with SOL. -/
theorem noQuote_fails_pending_witness :
    (¬ buyAnalysis95.confidence < liveConfig.confidenceThreshold ∧
      buyAnalysis95.decision = "buy" ∧
      solEnv.post = some solPost ∧
      checkPortfolioRisk liveConfig (chosenSymbol solPost buyAnalysis95)
        (tradeAmountUSD liveConfig buyAnalysis95.confidence)
        solEnv.ledger = true ∧
      liveConfig.paperTradingMode = false ∧ liveConfig.hasWallet = true ∧
      solEnv.quote = none) ∧
    (executeTrade liveConfig solEnv buyAnalysis95 [] =
      (none, [noQuoteRow solEnv buyAnalysis95 solPost],
        [Effect.quoteRequest]) ∧
    (noQuoteRow solEnv buyAnalysis95 solPost).status = "failed" ∧
    (noQuoteRow solEnv buyAnalysis95 solPost).errorMessage =
      some "No quote found" ∧
    Effect.swapRequest ∉ (executeTrade liveConfig solEnv buyAnalysis95 []).2.2 ∧
    Effect.sendTransaction ∉
      (executeTrade liveConfig solEnv buyAnalysis95 []).2.2) := by
  have hconf : ¬ buyAnalysis95.confidence < liveConfig.confidenceThreshold := by
    norm_num [buyAnalysis95, liveConfig]
  have hsym : chosenSymbol solPost buyAnalysis95 = "SOL" := rfl
  have hrisk : checkPortfolioRisk liveConfig
      (chosenSymbol solPost buyAnalysis95)
      (tradeAmountUSD liveConfig buyAnalysis95.confidence)
      solEnv.ledger = true := by
    rw [hsym]
    norm_num [checkPortfolioRisk, totalExposureOf, tokenExposureOf,
      tradeAmountUSD, positionSize, scaledConfidence, liveConfig,
      buyAnalysis95, solEnv, min_def]
  exact ⟨⟨hconf, rfl, rfl, hrisk, rfl, rfl, rfl⟩,
    noQuote_fails_pending liveConfig solEnv buyAnalysis95 [] solPost
      hconf rfl rfl hrisk rfl rfl rfl⟩

/-! ### Claim C2: fields of completed trade rows -/

/-- The scale factor is non-negative at/above the threshold. -/
theorem scaledConfidence_nonneg (cfg : Config) (confidence : ℚ)
    (hthr : cfg.confidenceThreshold < 1)
    (hconf : cfg.confidenceThreshold ≤ confidence) :
    0 ≤ scaledConfidence cfg confidence :=
  div_nonneg (sub_nonneg.mpr hconf) (le_of_lt (sub_pos.mpr hthr))

/-- The notional is non-negative at/above the threshold. -/
theorem tradeAmountUSD_nonneg (cfg : Config) (confidence : ℚ)
    (hthr : cfg.confidenceThreshold < 1) (hmax : 0 ≤ cfg.maxPositionSize)
    (hconf : cfg.confidenceThreshold ≤ confidence) :
    0 ≤ tradeAmountUSD cfg confidence := by
  have h1 : 0 ≤ cfg.maxPositionSize * scaledConfidence cfg confidence :=
    mul_nonneg hmax (scaledConfidence_nonneg cfg confidence hthr hconf)
  have h2 : 0 ≤ positionSize cfg confidence := le_min h1 hmax
  unfold tradeAmountUSD
  linarith

/-- The notional is strictly positive strictly above the threshold. -/
theorem tradeAmountUSD_pos (cfg : Config) (confidence : ℚ)
    (hthr : cfg.confidenceThreshold < 1) (hmax : 0 < cfg.maxPositionSize)
    (hconf : cfg.confidenceThreshold < confidence) :
    0 < tradeAmountUSD cfg confidence := by
  have hs : 0 < scaledConfidence cfg confidence :=
    div_pos (sub_pos.mpr hconf) (sub_pos.mpr hthr)
  have h2 : 0 < positionSize cfg confidence :=
    lt_min (mul_pos hmax hs) hmax
  unfold tradeAmountUSD
  linarith

/-- Rows of `failPendingRows` are original rows or have been failed. -/
theorem failPendingRows_cases {t : Trade} {rows : List Trade} {aid : Nat}
    {msg : String} (h : t ∈ failPendingRows rows aid msg) :
    t ∈ rows ∨ t.status = "failed" := by
  unfold failPendingRows at h
  rcases List.mem_map.mp h with ⟨u, hu, hfu⟩
  by_cases hc : (u.analysisId == aid && u.status == "pending") = true
  · rw [if_pos hc] at hfu
    right
    rw [← hfu]
  · rw [if_neg hc] at hfu
    left
    rw [← hfu]
    exact hu

/-- C2 (amended): every row `executeTrade` adds or modifies that ends up
`status="completed"` has `tokenAmount ≥ 0`, `priceUsd ≥ 0` and, when not
a paper trade, a transaction hash; a completed paper trade always has
`priceUsd > 0`, and `tokenAmount > 0` whenever confidence is strictly
above the threshold.  (At confidence exactly the threshold the notional
is 0 and a completed paper trade with `tokenAmount = 0` is still
created, so the original `tokenAmount > 0` invariant does not hold.) -/
theorem completedTrade_invariant (cfg : Config) (env : Env)
    (a : AnalysisResult) (db : List Trade)
    (hthr : cfg.confidenceThreshold < 1)
    (hmax : 0 < cfg.maxPositionSize) :
    ∀ t ∈ (executeTrade cfg env a db).2.1, t ∈ db ∨
      (t.status = "completed" →
        0 ≤ t.tokenAmount ∧ 0 ≤ t.priceUsd ∧
        (t.isPaperTrade = false → t.transactionHash.isSome = true) ∧
        (t.isPaperTrade = true → 0 < t.priceUsd ∧
          (cfg.confidenceThreshold < a.confidence → 0 < t.tokenAmount))) := by
  intro t ht
  by_cases h1 : a.confidence < cfg.confidenceThreshold
  · rw [executeTrade_early_none cfg env a db (Or.inl h1)] at ht
    exact Or.inl ht
  by_cases h2 : a.decision = "buy"
  case neg =>
    rw [executeTrade_early_none cfg env a db (Or.inr (Or.inl h2))] at ht
    exact Or.inl ht
  cases hp : env.post with
  | none =>
    rw [executeTrade_early_none cfg env a db (Or.inr (Or.inr hp))] at ht
    exact Or.inl ht
  | some p =>
  have hconfGe : cfg.confidenceThreshold ≤ a.confidence := not_lt.mp h1
  have hamt : 0 ≤ tradeAmountUSD cfg a.confidence :=
    tradeAmountUSD_nonneg cfg a.confidence hthr (le_of_lt hmax) hconfGe
  cases hcr : checkPortfolioRisk cfg (chosenSymbol p a)
      (tradeAmountUSD cfg a.confidence) env.ledger with
  | false =>
    rw [executeTrade_riskFail_eq cfg env a db p h1 h2 hp hcr] at ht
    exact Or.inl ht
  | true =>
  by_cases hm : cfg.paperTradingMode = true ∨ cfg.hasWallet = false
  · rw [executeTrade_paper_eq cfg env a db p h1 h2 hp hcr hm] at ht
    rcases List.mem_append.mp ht with h | h
    · exact Or.inl h
    · right
      intro _
      rw [List.mem_singleton.mp h]
      have hprice : (0:ℚ) <
          (if chosenSymbol p a == "SOL" then (150:ℚ) else 1/1000) := by
        split_ifs <;> norm_num
      refine ⟨?_, ?_, ?_, ?_⟩
      · exact div_nonneg hamt (le_of_lt hprice)
      · exact le_of_lt hprice
      · intro hfalse
        simp [paperTradeRow] at hfalse
      · intro _
        refine ⟨hprice, fun hgt => ?_⟩
        exact div_pos (tradeAmountUSD_pos cfg a.confidence hthr hmax hgt)
          hprice
  · obtain ⟨hm1, hm2⟩ := not_or.mp hm
    have hpaper : cfg.paperTradingMode = false := by
      revert hm1
      cases cfg.paperTradingMode <;> simp
    have hw : cfg.hasWallet = true := by
      revert hm2
      cases cfg.hasWallet <;> simp
    cases hq : env.quote with
    | none =>
      rw [executeTrade_noQuote_eq cfg env a db p h1 h2 hp hcr hpaper hw hq]
        at ht
      rcases List.mem_append.mp ht with h | h
      · exact Or.inl h
      · right
        intro hst
        rw [List.mem_singleton.mp h] at hst
        simp [noQuoteRow, pendingRow] at hst
    | some outAmount =>
      cases hsw : env.swapBuild with
      | error msg =>
        rw [executeTrade_swapError_eq cfg env a db p msg h1 h2 hp hcr hpaper
          hw outAmount hq hsw] at ht
        rcases failPendingRows_cases ht with h | h
        · rcases List.mem_append.mp h with h3 | h3
          · exact Or.inl h3
          · right
            intro hst
            rw [List.mem_singleton.mp h3] at hst
            simp [pendingRow] at hst
        · right
          intro hst
          rw [h] at hst
          simp at hst
      | ok u =>
        cases u
        cases hsd : env.send with
        | error msg =>
          rw [executeTrade_sendError_eq cfg env a db p msg h1 h2 hp hcr
            hpaper hw outAmount hq hsw hsd] at ht
          rcases failPendingRows_cases ht with h | h
          · rcases List.mem_append.mp h with h3 | h3
            · exact Or.inl h3
            · right
              intro hst
              rw [List.mem_singleton.mp h3] at hst
              simp [pendingRow] at hst
          · right
            intro hst
            rw [h] at hst
            simp at hst
        | ok txid =>
          rw [executeTrade_liveSuccess_eq cfg env a db p txid h1 h2 hp hcr
            hpaper hw outAmount hq hsw hsd] at ht
          rcases List.mem_append.mp ht with h | h
          · exact Or.inl h
          · right
            intro _
            rw [List.mem_singleton.mp h]
            refine ⟨?_, ?_, ?_, ?_⟩
            · exact div_nonneg (Nat.cast_nonneg outAmount)
                (pow_nonneg (by norm_num) _)
            · exact div_nonneg hamt
                (div_nonneg (Nat.cast_nonneg outAmount)
                  (pow_nonneg (by norm_num) _))
            · intro _
              rfl
            · intro habs
              simp [liveCompletedRow, pendingRow] at habs

/-- A `buy` analysis with confidence exactly at the 0.80 threshold. -/
def buyAnalysis80 : AnalysisResult :=
  { id := 4
    postId := 3
    confidence := 4/5
    decision := "buy"
    relatedTokens := []
    processedAt := 0 }

/-- C2 counterexample: at confidence exactly the threshold the sized
notional is $0, yet a `status="completed"` trade row with
`tokenAmount = 0` is created — refuting both "`tokenAmount > 0`" and
"a 0 notional implies no trade". -/
theorem zeroNotional_creates_completed_trade :
    tradeAmountUSD paperConfig buyAnalysis80.confidence = 0 ∧
    (executeTrade paperConfig solEnv buyAnalysis80 []).1 =
      some (paperTradeRow paperConfig solEnv buyAnalysis80 solPost) ∧
    (paperTradeRow paperConfig solEnv buyAnalysis80 solPost).status =
      "completed" ∧
    (paperTradeRow paperConfig solEnv buyAnalysis80 solPost).tokenAmount =
      0 := by
  have hsym : chosenSymbol solPost buyAnalysis80 = "SOL" := rfl
  have hamt : tradeAmountUSD paperConfig buyAnalysis80.confidence = 0 := by
    norm_num [tradeAmountUSD, positionSize, scaledConfidence, paperConfig,
      buyAnalysis80, min_def]
  have hrisk : checkPortfolioRisk paperConfig
      (chosenSymbol solPost buyAnalysis80)
      (tradeAmountUSD paperConfig buyAnalysis80.confidence)
      solEnv.ledger = true := by
    rw [hsym, hamt]
    norm_num [checkPortfolioRisk, totalExposureOf, tokenExposureOf,
      paperConfig, solEnv]
  have hconf : ¬ buyAnalysis80.confidence < paperConfig.confidenceThreshold := by
    norm_num [buyAnalysis80, paperConfig]
  refine ⟨hamt, ?_, rfl, ?_⟩
  · rw [executeTrade_paper_eq paperConfig solEnv buyAnalysis80 [] solPost
      hconf rfl rfl hrisk (Or.inl rfl)]
  · simp [paperTradeRow, hsym, hamt]

/-- C2 witness: the amended invariant applied to the concrete paper run
at confidence 0.95: the created completed row satisfies it. -/
theorem completedTrade_invariant_witness :
    ((4:ℚ)/5 < 1 ∧ (0:ℚ) < 1/20) ∧
    (paperTradeRow paperConfig solEnv buyAnalysis95 solPost ∈
      (executeTrade paperConfig solEnv buyAnalysis95 []).2.1 ∧
    ((paperTradeRow paperConfig solEnv buyAnalysis95 solPost).status =
        "completed" →
      0 ≤ (paperTradeRow paperConfig solEnv buyAnalysis95 solPost).tokenAmount ∧
      0 ≤ (paperTradeRow paperConfig solEnv buyAnalysis95 solPost).priceUsd ∧
      ((paperTradeRow paperConfig solEnv buyAnalysis95 solPost).isPaperTrade =
          false →
        (paperTradeRow paperConfig solEnv buyAnalysis95
          solPost).transactionHash.isSome = true) ∧
      ((paperTradeRow paperConfig solEnv buyAnalysis95 solPost).isPaperTrade =
          true →
        0 < (paperTradeRow paperConfig solEnv buyAnalysis95 solPost).priceUsd ∧
        (paperConfig.confidenceThreshold < buyAnalysis95.confidence →
          0 < (paperTradeRow paperConfig solEnv buyAnalysis95
            solPost).tokenAmount)))) := by
  have hsym : chosenSymbol solPost buyAnalysis95 = "SOL" := rfl
  have hconf : ¬ buyAnalysis95.confidence < paperConfig.confidenceThreshold := by
    norm_num [buyAnalysis95, paperConfig]
  have hrisk : checkPortfolioRisk paperConfig
      (chosenSymbol solPost buyAnalysis95)
      (tradeAmountUSD paperConfig buyAnalysis95.confidence)
      solEnv.ledger = true := by
    rw [hsym]
    norm_num [checkPortfolioRisk, totalExposureOf, tokenExposureOf,
      tradeAmountUSD, positionSize, scaledConfidence, paperConfig,
      buyAnalysis95, solEnv, min_def]
  have hmem : paperTradeRow paperConfig solEnv buyAnalysis95 solPost ∈
      (executeTrade paperConfig solEnv buyAnalysis95 []).2.1 := by
    rw [executeTrade_paper_eq paperConfig solEnv buyAnalysis95 [] solPost
      hconf rfl rfl hrisk (Or.inl rfl)]
    simp
  have hthr : paperConfig.confidenceThreshold < 1 := by
    norm_num [paperConfig]
  have hmax : (0:ℚ) < paperConfig.maxPositionSize := by
    norm_num [paperConfig]
  have h := completedTrade_invariant paperConfig solEnv buyAnalysis95 []
    hthr hmax (paperTradeRow paperConfig solEnv buyAnalysis95 solPost) hmem
  rcases h with h | h
  · cases h
  · exact ⟨⟨by norm_num, by norm_num⟩, hmem, h⟩

/-! ### Claim C3: reprocessing the same analysis -/

/-- The witness environment for a second processing of the same analysis:
the ledger query now also sees the first run's completed trade. -/
def solEnv2 : Env :=
  { solEnv with
      ledger := Except.ok [paperTradeRow paperConfig solEnv buyAnalysis95 solPost]
      freshUuid := "u3" }

/-- C3 counterexample: `executeTrade` has no duplicate check — invoking it
twice for the same analysis (as `POST /api/process-analysis` with an
explicit `analysisId` does) creates a second completed row, leaving two
non-failed `Trade` rows for `analysisId = 1`. -/
theorem reprocessing_creates_duplicate :
    (executeTrade paperConfig solEnv buyAnalysis95 []).2.1 =
      [paperTradeRow paperConfig solEnv buyAnalysis95 solPost] ∧
    (executeTrade paperConfig solEnv2 buyAnalysis95
        [paperTradeRow paperConfig solEnv buyAnalysis95 solPost]).2.1 =
      [paperTradeRow paperConfig solEnv buyAnalysis95 solPost,
        paperTradeRow paperConfig solEnv2 buyAnalysis95 solPost] ∧
    (((executeTrade paperConfig solEnv2 buyAnalysis95
        [paperTradeRow paperConfig solEnv buyAnalysis95 solPost]).2.1).filter
      (fun t => t.analysisId == buyAnalysis95.id &&
        !(t.status == "failed"))).length = 2 := by
  have hsym : chosenSymbol solPost buyAnalysis95 = "SOL" := rfl
  have hconf : ¬ buyAnalysis95.confidence < paperConfig.confidenceThreshold := by
    norm_num [buyAnalysis95, paperConfig]
  have hrisk1 : checkPortfolioRisk paperConfig
      (chosenSymbol solPost buyAnalysis95)
      (tradeAmountUSD paperConfig buyAnalysis95.confidence)
      solEnv.ledger = true := by
    rw [hsym]
    norm_num [checkPortfolioRisk, totalExposureOf, tokenExposureOf,
      tradeAmountUSD, positionSize, scaledConfidence, paperConfig,
      buyAnalysis95, solEnv, min_def]
  have hcv : buyAnalysis95.confidence = 19/20 := rfl
  have hrisk2 : checkPortfolioRisk paperConfig
      (chosenSymbol solPost buyAnalysis95)
      (tradeAmountUSD paperConfig buyAnalysis95.confidence)
      solEnv2.ledger = true := by
    norm_num [checkPortfolioRisk, totalExposureOf, tokenExposureOf,
      tradeAmountUSD, positionSize, scaledConfidence, paperConfig,
      hcv, solEnv, solEnv2, paperTradeRow, hsym,
      List.filter_cons, List.filter_nil, min_def]
  have h1 := executeTrade_paper_eq paperConfig solEnv buyAnalysis95 []
    solPost hconf rfl rfl hrisk1 (Or.inl rfl)
  have h2 := executeTrade_paper_eq paperConfig solEnv2 buyAnalysis95
    [paperTradeRow paperConfig solEnv buyAnalysis95 solPost]
    solPost hconf rfl rfl hrisk2 (Or.inl rfl)
  refine ⟨by simp [h1], by simp [h2], ?_⟩
  rw [h2]
  simp [paperTradeRow, List.filter_cons, List.filter_nil]

/-- C3 (amended): the polling tick (and the bulk manual path) select only
analyses with no associated `Trade` row, so an analysis that already has
a trade — of any status — is never fetched again by the loop.  (The
targeted manual path `POST /api/process-analysis {analysisId}` performs
no such check and does create a duplicate.) -/
theorem tickFetch_never_revisits (analyses : List AnalysisResult)
    (trades : List Trade) (now : ℚ) (a : AnalysisResult)
    (h : hasTradeFor trades a.id = true) :
    a ∉ tickFetch analyses trades now := by
  intro hmem
  unfold tickFetch at hmem
  have h2 := List.mem_of_mem_take hmem
  have h3 := (List.mem_insertionSort newestFirst).mp h2
  have h4 := (List.mem_filter.mp h3).2
  rw [h] at h4
  simp at h4

/-- A completed trade row already recorded for `analysisId = 1`. -/
def tradeForA95 : Trade :=
  { uuid := "t9"
    analysisId := 1
    tokenSymbol := "SOL"
    tokenAmount := 1
    priceUsd := 1
    transactionHash := none
    isPaperTrade := true
    status := "completed"
    executedAt := 0
    errorMessage := none }

/-- C3 witness: with a trade already recorded for analysis 1, the tick
never fetches analysis 1 again. -/
theorem tickFetch_never_revisits_witness :
    hasTradeFor [tradeForA95] buyAnalysis95.id = true ∧
    buyAnalysis95 ∉ tickFetch [buyAnalysis95] [tradeForA95] 0 :=
  ⟨rfl, tickFetch_never_revisits [buyAnalysis95] [tradeForA95] 0
    buyAnalysis95 rfl⟩

/-! ### Claim C4: the polling tick's fetch -/

/-- An analysis processed at time 1000 (the older of the two). -/
def oldAnalysis : AnalysisResult :=
  { id := 11
    postId := 1
    confidence := 1/2
    decision := "hold"
    relatedTokens := []
    processedAt := 1000 }

/-- An analysis processed at time 2000 (the newer of the two). -/
def newAnalysis : AnalysisResult :=
  { id := 12
    postId := 2
    confidence := 1/2
    decision := "hold"
    relatedTokens := []
    processedAt := 2000 }

/-- C4 counterexample: the query orders `processedAt: 'desc'` — with two
pending analyses the newer one comes first, not oldest-first as
claimed. -/
theorem tickFetch_newest_first_counterexample :
    oldAnalysis.processedAt < newAnalysis.processedAt ∧
    tickFetch [oldAnalysis, newAnalysis] [] 2000 =
      [newAnalysis, oldAnalysis] := by
  constructor
  · norm_num [oldAnalysis, newAnalysis]
  · norm_num [tickFetch, hasTradeFor, List.insertionSort,
      List.orderedInsert, newestFirst, oldAnalysis, newAnalysis,
      List.filter_cons, List.filter_nil]

/-- C4 (amended): each tick fetches at most 5 analyses, each fetched
analysis has no associated trade and lies within the 5-minute recency
window, and the fetched list is ordered newest-first (by `processedAt`
descending) — not oldest-first; the loop then processes them
sequentially in exactly that list order. -/
theorem tickFetch_spec (analyses : List AnalysisResult)
    (trades : List Trade) (now : ℚ) :
    (tickFetch analyses trades now).length ≤ 5 ∧
    (∀ a ∈ tickFetch analyses trades now,
      a ∈ analyses ∧ hasTradeFor trades a.id = false ∧
      now - 300000 ≤ a.processedAt) ∧
    (tickFetch analyses trades now).Pairwise
      (fun x y => y.processedAt ≤ x.processedAt) := by
  refine ⟨?_, ?_, ?_⟩
  · unfold tickFetch
    rw [List.length_take]
    exact min_le_left _ _
  · intro a ha
    unfold tickFetch at ha
    have h2 := List.mem_of_mem_take ha
    have h3 := (List.mem_insertionSort newestFirst).mp h2
    obtain ⟨hmem, hcond⟩ := List.mem_filter.mp h3
    obtain ⟨hc1, hc2⟩ := (Bool.and_eq_true _ _).mp hcond
    refine ⟨hmem, ?_, of_decide_eq_true hc2⟩
    simpa using hc1
  · unfold tickFetch
    have hs := List.sorted_insertionSort newestFirst
      (analyses.filter (fun a =>
        !hasTradeFor trades a.id && decide (now - 300000 ≤ a.processedAt)))
    exact List.Pairwise.sublist (List.take_sublist 5 _) hs

/-! ### Claim C10: every candidate symbol is supported -/

/-- C10: the candidate symbol list built in `executeTrade` is non-empty,
every element is a `tokenMap` key, and in particular the first candidate
— the chosen trading target — is supported, so the unsupported-token
rejection branch never fires. -/
theorem candidateSymbols_nonempty_supported (raw : List String)
    (related : List RelatedToken) :
    candidateSymbols raw related ≠ [] ∧
    (∀ s ∈ candidateSymbols raw related, (tokenLookup s).isSome = true) ∧
    (tokenLookup ((candidateSymbols raw related).headD "")).isSome = true := by
  obtain ⟨hne, hall⟩ := candidateSymbols_supported raw related
  exact ⟨hne, hall, candidateSymbols_headD_supported raw related⟩

end XMon
